import Mathlib

/-!
Verification of a FastAPI tutorial application (path parameters, query
parameters, request bodies, string validation).

Handler functions are embedded directly from the Python source files
(src/main.py, src/routes/*.py).  The request-routing and
parameter-binding layer is provided by the web framework and is not part
of the repository; those parts are modelled from the specification
(sections 3, 4.1 and 7), and each such definition carries a doc comment
starting with "Modelled from the spec:".
-/

/-- Modelled from the spec: the error kinds a binding/validation failure
can report (missing required field, type coercion failure which also
covers an enumerated-type mismatch, string too short / too long, and a
full-string regular-expression mismatch). -/
inductive ErrorKind where
  | missing
  | type_error
  | too_short
  | too_long
  | pattern_mismatch
  deriving DecidableEq, Repr

/-- The ModelName enumeration from src/main.py (and src/routes/path_params.py):
a closed set of three string variants. -/
inductive ModelName where
  | alexnet
  | resnet
  | lenet
  deriving DecidableEq, Repr

/-- The string value carried by each ModelName variant (Python
`model_name.value`). -/
def ModelName.value : ModelName → String
  | .alexnet => "alexnet"
  | .resnet => "resnet"
  | .lenet => "lenet"

/-- Modelled from the spec: enumerated-type parameters perform an exact
case-sensitive match of the raw path segment against the declared
variant set; any other value is a binding failure. -/
def ModelName.fromString (s : String) : Option ModelName :=
  if s == "alexnet" then some .alexnet
  else if s == "resnet" then some .resnet
  else if s == "lenet" then some .lenet
  else none

/-- Response shape of the `GET /models/{model_name}` handler. -/
structure GetModelResponse where
  model_name : ModelName
  message : String
  deriving DecidableEq, Repr

/-- The `get_model` handler from src/main.py lines 282-298: an equality
test against `ModelName.alexnet`, then a test of `model_name.value`
against "lenet", then a fall-through default. -/
def get_model (model_name : ModelName) : GetModelResponse :=
  if model_name = ModelName.alexnet then
    { model_name := model_name, message := "Deep Learning FTW!" }
  else if model_name.value == "lenet" then
    { model_name := model_name, message := "LeCNN all the images" }
  else
    { model_name := model_name, message := "Have some residuals" }

/-- Modelled from the spec: one segment of a path template — a fixed
literal, an ordinary named variable segment (never crosses a slash), or
a greedy capture that consumes the rest of the path. -/
inductive Seg where
  | lit (s : String)
  | pvar (name : String)
  | greedy (name : String)
  deriving DecidableEq, Repr

/-- Modelled from the spec: a route is an (HTTP method, path template)
pair; `tag` names the associated handler function. -/
structure Route where
  method : String
  segs : List Seg
  tag : String
  deriving DecidableEq, Repr

/-- Modelled from the spec: structural match of a path template against
the slash-separated segments of a concrete request path.  A literal
segment must equal the path segment exactly, a variable segment matches
any single path segment, and a trailing greedy segment matches all
remaining path text. -/
def matchSegs : List Seg → List String → Bool
  | [], [] => true
  | [Seg.greedy _], _ => true
  | Seg.lit s :: r, p :: ps => s == p && matchSegs r ps
  | Seg.pvar _ :: r, _ :: ps => matchSegs r ps
  | _, _ => false

/-- Modelled from the spec: the router tries routes in declaration order
and selects the first structural match of method and path. -/
def firstMatch (routes : List Route) (method : String) (path : List String) :
    Option Route :=
  routes.find? (fun r => r.method == method && matchSegs r.segs path)

/-- Route `GET /users/me` from src/main.py (declared before the variable
route). -/
def readUserMeRoute : Route :=
  { method := "GET", segs := [.lit "users", .lit "me"], tag := "read_user_me" }

/-- Route `GET /users/{user_id}` from src/main.py (declared after the
literal route). -/
def readUserRoute : Route :=
  { method := "GET", segs := [.lit "users", .pvar "user_id"], tag := "read_user" }

/-- Route `GET /models/{model_name}` from src/main.py. -/
def modelsRoute : Route :=
  { method := "GET", segs := [.lit "models", .pvar "model_name"], tag := "get_model" }

/-- The route table of src/main.py, in declaration order (templates with
a trailing slash keep an empty final literal segment). -/
def mainRoutes : List Route :=
  [ { method := "POST", segs := [.lit "items", .lit ""], tag := "create_item" },
    { method := "PUT", segs := [.lit "items-request-body-path-params", .pvar "item_id"],
      tag := "create_item_request_body_path_params" },
    { method := "PUT", segs := [.lit "items-request-body-path-query-params", .pvar "item_id"],
      tag := "create_item_request_body_path_query_params" },
    { method := "GET", segs := [.lit ""], tag := "root" },
    { method := "GET", segs := [.lit "items", .lit ""], tag := "read_dic_item" },
    { method := "GET", segs := [.lit "items", .pvar "item_id"], tag := "read_item" },
    { method := "GET", segs := [.lit "items-optional-param", .pvar "item_id"],
      tag := "read_item_optional_param" },
    { method := "GET", segs := [.lit "items-required-query-param", .pvar "item_id"],
      tag := "read_item_required_query_param" },
    { method := "GET", segs := [.lit "items-optional-query-and-bool-param", .pvar "item_id"],
      tag := "read_item_optional_query_and_bool_param" },
    { method := "GET", segs := [.lit "items-required-and-optional-params", .pvar "item_id"],
      tag := "read_item_required_and_bool_param" },
    readUserMeRoute,
    readUserRoute,
    { method := "GET", segs := [.lit "users", .pvar "user_id", .lit "items", .pvar "item_id"],
      tag := "read_user_item_multiple_path_and_query_params" },
    modelsRoute,
    { method := "GET", segs := [.lit "files", .greedy "file_path"], tag := "read_file" } ]

/-- Outcome of dispatching a `GET /models/...` request: no route
matched, a binding/validation failure, or a handler response. -/
inductive ModelsResult where
  | notFound
  | validationError (kind : ErrorKind)
  | ok (r : GetModelResponse)
  deriving DecidableEq, Repr

/-- For every path of the form `/models/{s}` the first (and only)
structurally matching GET route in the table is `modelsRoute`. -/
theorem firstMatch_models_path (s : String) :
    firstMatch mainRoutes "GET" ["models", s] = some modelsRoute := rfl

/-- Full pipeline of a `GET /models/{s}` request against the app of
src/main.py: route lookup in declaration order, then (since the matching
route is always `modelsRoute`, see `firstMatch_models_path`) enum
binding of the raw segment, then the `get_model` handler.  The binding
step is modelled from the spec: an enumerated-type mismatch is a binding
failure reported as a type coercion error, surfaced as a 422-class
validation error; not-found arises only when no route matches. -/
def handleModelsRequest (s : String) : ModelsResult :=
  match firstMatch mainRoutes "GET" ["models", s] with
  | none => .notFound
  | some _ =>
      match ModelName.fromString s with
      | none => .validationError .type_error
      | some m => .ok (get_model m)

/-- Response shape of the two `/users/...` handlers. -/
structure UserResponse where
  user_id : String
  deriving DecidableEq, Repr

/-- The `read_user_me` handler from src/main.py lines 234-244. -/
def read_user_me : UserResponse :=
  { user_id := "the current user" }

/-- The `read_user` handler from src/main.py lines 247-256. -/
def read_user (user_id : String) : UserResponse :=
  { user_id := user_id }

/-- Outcome of dispatching a `GET /users/{s}` request. -/
inductive UsersResult where
  | notFound
  | ok (r : UserResponse)
  deriving DecidableEq, Repr

/-- Full pipeline of a `GET /users/{s}` request against the app of
src/main.py: route lookup in declaration order, then the handler named
by the selected route.  Every route of the table that can match such a
path is tagged either read_user_me or read_user, so the final fallback
branch is unreachable. -/
def handleUsersRequest (s : String) : UsersResult :=
  match firstMatch mainRoutes "GET" ["users", s] with
  | none => .notFound
  | some r =>
      if r.tag == "read_user_me" then .ok read_user_me
      else if r.tag == "read_user" then .ok (read_user s)
      else .notFound

/-- One entry of the in-memory mock list (Python dict with a single key
item_name). -/
structure DbItem where
  item_name : String
  deriving DecidableEq, Repr

/-- The fake_items_db mock list from src/main.py line 13 (also
src/routes/query_params.py line 9). -/
def fake_items_db : List DbItem :=
  [{ item_name := "Foo" }, { item_name := "Bar" }, { item_name := "Thirt" }]

/-- Python list slicing `l[i : j]` with step 1: each bound is clamped —
a negative bound counts from the end of the list (and is clamped to 0),
a bound past the end is clamped to the length — and the result is the
elements with normalized index in [i, j). -/
def pySlice {α : Type} (l : List α) (i j : Int) : List α :=
  let n := l.length
  let i' := if i < 0 then ((n : Int) + i).toNat else min i.toNat n
  let j' := if j < 0 then ((n : Int) + j).toNat else min j.toNat n
  (l.take j').drop i'

/-- The `read_dic_item` handler from src/main.py lines 141-153 (same body
in src/routes/query_params.py lines 10-24): returns
`fake_items_db[skip : skip + limit]`. -/
def read_dic_item (skip limit : Int) : List DbItem :=
  pySlice fake_items_db skip (skip + limit)

/-- The Item request-body schema from src/main.py lines 26-41 (also
src/routes/body.py lines 10-25).  Prices are modelled as exact rational
numbers; the literals appearing in this development (45.2, 3.9, 49.1)
are represented exactly by the double-precision floats the source
manipulates, and 45.2 + 3.9 rounds to exactly 49.1 in doubles, so the
rational model is observationally faithful here. -/
structure Item where
  name : String
  description : Option String := none
  price : ℚ
  tax : Option ℚ := none

/-- Response shape of the `POST /items/` handler: all body fields plus
the computed price_with_tax and the two stamp fields. -/
structure CreateItemResponse where
  name : String
  description : Option String
  price : ℚ
  tax : Option ℚ
  price_with_tax : ℚ
  create_time : String
  create_user : String

/-- Python truthiness of the optional tax field: None and 0.0 are falsy,
every other float is truthy (`if item.tax:` in the source). -/
def taxTruthy : Option ℚ → Bool
  | none => false
  | some t => !(t == 0)

/-- The `create_item` handler from src/routes/body.py lines 27-54 (same
body in src/main.py lines 44-71): echo the body fields, add
price_with_tax (price + tax when tax is truthy, else price), and stamp
the current time and the fixed user string.  The wall-clock reading
`str(datetime.now())` is passed in as the current_time argument. -/
def create_item (item : Item) (current_time : String) : CreateItemResponse :=
  { name := item.name
    description := item.description
    price := item.price
    tax := item.tax
    price_with_tax :=
      if taxTruthy item.tax then
        item.price + (item.tax.getD 0)
      else
        item.price
    create_time := current_time
    create_user := "Test User" }

/-- Modelled from the spec: the constraint set a string parameter may
declare — minimum length, maximum length, and a full-string regular
expression.  The only regular expression occurring in the source is
`^fixedquery$`, an anchored literal, so the regex field stores the
literal between the anchors; a full-string match of an anchored literal
holds exactly when the whole string equals that literal. -/
structure StrConstraints where
  min_length : Option Nat := none
  max_length : Option Nat := none
  regexLit : Option String := none
  deriving DecidableEq, Repr

/-- Modelled from the spec: check every declared constraint against the
decoded string and aggregate the failures (validation is not
short-circuited on the first error) into an ordered error list —
too_short, then too_long, then pattern_mismatch. -/
def strConstraintErrors (c : StrConstraints) (s : String) : List ErrorKind :=
  (match c.min_length with
    | some m => if s.length < m then [ErrorKind.too_short] else []
    | none => []) ++
  (match c.max_length with
    | some M => if M < s.length then [ErrorKind.too_long] else []
    | none => []) ++
  (match c.regexLit with
    | some lit => if s == lit then [] else [ErrorKind.pattern_mismatch]
    | none => [])

/-- Modelled from the spec: binding a supplied string value either
succeeds with the value (no constraint violated) or rejects the request
with the aggregated error list of a 422-class validation response. -/
def bindStrParam (c : StrConstraints) (s : String) :
    Except (List ErrorKind) String :=
  match strConstraintErrors c s with
  | [] => .ok s
  | e :: es => .error (e :: es)

/-- Constraints declared on q by the route
`/items-with-query-params-str-max-min-length-validation/`
(src/routes/query_params_str_validations.py lines 47-64):
`Query(default=None, min_length=3, max_length=50)`. -/
def qMinMaxConstraints : StrConstraints :=
  { min_length := some 3, max_length := some 50 }

/-- Constraints declared on q by the route
`/items-with-query-params-str-max-min-length-and-regex-validation/`
(src/routes/query_params_str_validations.py lines 66-83):
`Query(default=None, min_length=3, max_length=50, regex="^fixedquery$")`. -/
def qRegexConstraints : StrConstraints :=
  { min_length := some 3, max_length := some 50, regexLit := some "fixedquery" }

/-- Modelled from the spec: the raw query string as the ordered list of
its key-value pairs. -/
abbrev QueryString : Type := List (String × String)

/-- Modelled from the spec: the value of a scalar query parameter is its
first occurrence under the given (possibly aliased) wire name, or none
when the name does not occur. -/
def getFirstQueryValue (qs : QueryString) (wireName : String) : Option String :=
  ((List.find? (fun p => p.1 == wireName)) qs).map (fun p => p.2)

/-- Modelled from the spec: a list-valued query parameter collects all
occurrences of its wire name, preserving repetition order. -/
def collectQueryValues (qs : QueryString) (wireName : String) : List String :=
  ((List.filter (fun p => p.1 == wireName)) qs).map (fun p => p.2)

/-- One entry of the fixed results list returned by the validation-family
routes. -/
structure ItemRef where
  item_id : String
  deriving DecidableEq, Repr

/-- Response shape of the validation-family routes: the fixed items list
plus an optional q key (none means the key is omitted). -/
structure ItemsResults where
  items : List ItemRef
  q : Option String
  deriving DecidableEq, Repr

/-- Python truthiness of an optional string: None and the empty string
are falsy (`if q:` in the source). -/
def strOptTruthy : Option String → Bool
  | none => false
  | some s => !(s == "")

/-- The `read_items_with_alias_query_params` handler from
src/routes/query_params_str_validations.py lines 222-237: the fixed
items list, with q added when truthy. -/
def read_items_with_alias_query_params (q : Option String) : ItemsResults :=
  { items := [{ item_id := "Foo" }, { item_id := "Bar" }]
    q := if strOptTruthy q then q else none }

/-- Full pipeline of `GET /items-with-alias-query-params/` from the raw
query string: q is declared with alias item-query and default None, so
the request is consulted under the alias name (modelled from the spec)
and the bound value is handed to the handler under the name q. -/
def aliasRouteResponse (qs : QueryString) : ItemsResults :=
  read_items_with_alias_query_params (getFirstQueryValue qs "item-query")

/-- Response shape of `/items-query-params-with-multiple-values/`: the q
key always appears, holding either the collected list or null. -/
structure QueryItemsOpt where
  q : Option (List String)
  deriving DecidableEq, Repr

/-- Response shape of `/items-query-params-with-multiple-default-values/`. -/
structure QueryItemsList where
  q : List String
  deriving DecidableEq, Repr

/-- The `read_items_query_value_with_multiple_values` handler from
src/routes/query_params_str_validations.py lines 169-183: returns
`{"q": q}` unconditionally. -/
def read_items_query_value_with_multiple_values (q : Option (List String)) :
    QueryItemsOpt :=
  { q := q }

/-- The `read_items_query_value_with_multiple_default_values` handler
from src/routes/query_params_str_validations.py lines 185-196: returns
`{"q": q}` unconditionally. -/
def read_items_query_value_with_multiple_default_values (q : List String) :
    QueryItemsList :=
  { q := q }

/-- Full pipeline of `GET /items-query-params-with-multiple-values/`
from the raw query string: q is typed list-of-string with default None
(modelled from the spec: collect all occurrences in order; none occur —
fall back to the default). -/
def multiValuesResponse (qs : QueryString) : QueryItemsOpt :=
  read_items_query_value_with_multiple_values
    (match collectQueryValues qs "q" with
      | [] => none
      | v :: vs => some (v :: vs))

/-- Full pipeline of
`GET /items-query-params-with-multiple-default-values/` from the raw
query string: q is typed list-of-string with declared default
`["foo", "bar"]` (modelled from the spec: collect all occurrences in
order; none occur — fall back to the declared default list). -/
def multiDefaultResponse (qs : QueryString) : QueryItemsList :=
  read_items_query_value_with_multiple_default_values
    (match collectQueryValues qs "q" with
      | [] => ["foo", "bar"]
      | v :: vs => v :: vs)

/-- Successful binding of a string parameter returns exactly the
supplied value and happens exactly when no constraint is violated. -/
theorem bindStrParam_ok_iff (c : StrConstraints) (s v : String) :
    bindStrParam c s = Except.ok v ↔ strConstraintErrors c s = [] ∧ v = s := by
  unfold bindStrParam
  cases h : strConstraintErrors c s with
  | nil => simp [h, eq_comm]
  | cons e es => simp [h]

/-- C1 counterexample: for the non-variant path segment "foo", a
declared route still structurally matches `GET /models/foo` (the router
does not fall through to not-found), and the dispatch outcome is a
validation error, not a not-found response — the claim that such a
request yields a not-found response fails at this input. -/
theorem handleModels_foo_not_notFound :
    handleModelsRequest "foo" ≠ ModelsResult.notFound ∧
    handleModelsRequest "foo" = ModelsResult.validationError ErrorKind.type_error ∧
    firstMatch mainRoutes "GET" ["models", "foo"] = some modelsRoute := by
  refine ⟨?_, rfl, rfl⟩
  decide

/-- C1 (amended): for every path segment that is not one of the three
declared enum variants, `GET /models/{segment}` is rejected with a
422-class binding/validation error (enumerated-type mismatch); the
variable route still structurally matches, so the outcome is never a
not-found response. -/
theorem handleModels_invalid_segment_validation_error (s : String)
    (h : ModelName.fromString s = none) :
    handleModelsRequest s = ModelsResult.validationError ErrorKind.type_error ∧
    handleModelsRequest s ≠ ModelsResult.notFound := by
  have hroute := firstMatch_models_path s
  constructor
  · simp [handleModelsRequest, hroute, h]
  · simp [handleModelsRequest, hroute, h]

/-- C1 witness: the amended theorem applied to the concrete non-variant
segment "vgg". -/
theorem handleModels_invalid_segment_validation_error_witness :
    ModelName.fromString "vgg" = none ∧
    (handleModelsRequest "vgg" = ModelsResult.validationError ErrorKind.type_error ∧
      handleModelsRequest "vgg" ≠ ModelsResult.notFound) :=
  ⟨by decide, handleModels_invalid_segment_validation_error "vgg" (by decide)⟩

/-- C2: the `get_model` handler returns the fixed response of each enum
variant — alexnet gets "Deep Learning FTW!", lenet gets "LeCNN all the
images", resnet falls through to "Have some residuals" — every response
echoes the supplied variant as model_name, and the full `GET /models/...`
pipeline delivers exactly these responses for the three valid segments. -/
theorem get_model_enum_dispatch :
    get_model ModelName.alexnet =
      { model_name := ModelName.alexnet, message := "Deep Learning FTW!" } ∧
    get_model ModelName.lenet =
      { model_name := ModelName.lenet, message := "LeCNN all the images" } ∧
    get_model ModelName.resnet =
      { model_name := ModelName.resnet, message := "Have some residuals" } ∧
    (∀ m : ModelName, (get_model m).model_name = m) ∧
    handleModelsRequest "alexnet" =
      ModelsResult.ok { model_name := ModelName.alexnet, message := "Deep Learning FTW!" } ∧
    handleModelsRequest "lenet" =
      ModelsResult.ok { model_name := ModelName.lenet, message := "LeCNN all the images" } ∧
    handleModelsRequest "resnet" =
      ModelsResult.ok { model_name := ModelName.resnet, message := "Have some residuals" } := by
  refine ⟨rfl, rfl, rfl, ?_, rfl, rfl, rfl⟩
  intro m
  cases m <;> rfl

/-- C3: `GET /users/me` selects the literal route read_user_me (declared
earlier in the table) and responds with user_id "the current user"; the
variable route read_user would also structurally match the same path but
sits strictly later in declaration order, so the request is never
dispatched to it with user_id = "me". -/
theorem users_me_route_ordering :
    firstMatch mainRoutes "GET" ["users", "me"] = some readUserMeRoute ∧
    handleUsersRequest "me" = UsersResult.ok { user_id := "the current user" } ∧
    matchSegs readUserRoute.segs ["users", "me"] = true ∧
    readUserMeRoute ≠ readUserRoute ∧
    List.indexOf readUserMeRoute mainRoutes < List.indexOf readUserRoute mainRoutes := by
  refine ⟨rfl, rfl, rfl, by decide, by decide⟩

/-- C4: `GET /items/` slices the fixed 3-entry mock list with
`[skip : skip + limit)` semantics — skip=0,limit=10 returns all three
entries in order, skip=2,limit=10 returns only the last entry,
skip=5,limit=10 returns the empty sequence, and in general whenever
skip + limit reaches past the end of the list the handler returns
exactly the entries from skip onward, never an error. -/
theorem read_dic_item_pagination :
    read_dic_item 0 10 = fake_items_db ∧
    read_dic_item 2 10 = [{ item_name := "Thirt" }] ∧
    read_dic_item 5 10 = [] ∧
    ∀ (skip limit : Nat), fake_items_db.length ≤ skip + limit →
      read_dic_item skip limit = fake_items_db.drop skip := by
  refine ⟨by decide, by decide, by decide, ?_⟩
  intro skip limit h
  simp only [read_dic_item, pySlice]
  have h1 : ¬ ((skip : Int) < 0) := by omega
  have h2 : ¬ ((skip : Int) + (limit : Int) < 0) := by omega
  rw [if_neg h1, if_neg h2]
  have h3 : ((skip : Int) + (limit : Int)).toNat = skip + limit := by omega
  have h4 : (skip : Int).toNat = skip := by omega
  rw [h3, h4]
  have h5 : min (skip + limit) fake_items_db.length = fake_items_db.length :=
    min_eq_right h
  rw [h5, List.take_length]
  rcases le_or_lt skip fake_items_db.length with hc | hc
  · rw [min_eq_left hc]
  · rw [min_eq_right hc.le, List.drop_length, List.drop_eq_nil_of_le hc.le]

/-- C4 witness: the general tail-of-list clause applied at
skip = 2, limit = 10 on the concrete mock list. -/
theorem read_dic_item_pagination_witness :
    fake_items_db.length ≤ 2 + 10 ∧
    read_dic_item 2 10 = fake_items_db.drop 2 :=
  ⟨by decide, read_dic_item_pagination.2.2.2 2 10 (by decide)⟩

/-- C5: the `POST /items/` transform computes price_with_tax = price
when tax is omitted or zero (Python falsiness) and price + tax when tax
is a nonzero number — in particular 45.2 with tax omitted gives 45.2 and
45.2 with tax 3.9 gives 49.1 — and the response carries every body field
unchanged together with the timestamp and the fixed "Test User" stamp. -/
theorem create_item_price_with_tax :
    (∀ t : String,
      (create_item { name := "Foo", price := 45.2 } t).price_with_tax = 45.2) ∧
    (∀ t : String,
      (create_item { name := "Foo", price := 45.2, tax := some 3.9 } t).price_with_tax
        = 49.1) ∧
    (∀ (p : ℚ) (t : String),
      (create_item { name := "Foo", price := p, tax := some 0 } t).price_with_tax = p) ∧
    (∀ (it : Item) (t : String),
      (create_item it t).name = it.name ∧
      (create_item it t).description = it.description ∧
      (create_item it t).price = it.price ∧
      (create_item it t).tax = it.tax ∧
      (create_item it t).create_time = t ∧
      (create_item it t).create_user = "Test User") ∧
    (∀ (n : String) (d : Option String) (p tx : ℚ) (t : String),
      (create_item { name := n, description := d, price := p, tax := some tx } t).price_with_tax
        = if tx = 0 then p else p + tx) ∧
    (∀ (n : String) (d : Option String) (p : ℚ) (t : String),
      (create_item { name := n, description := d, price := p, tax := none } t).price_with_tax
        = p) := by
  refine ⟨?_, ?_, ?_, ?_, ?_, ?_⟩
  · intro t
    simp [create_item, taxTruthy]
  · intro t
    simp only [create_item, taxTruthy, Option.getD_some]
    norm_num
  · intro p t
    simp [create_item, taxTruthy]
  · intro it t
    exact ⟨rfl, rfl, rfl, rfl, rfl, rfl⟩
  · intro n d p tx t
    by_cases htx : tx = 0
    · simp [create_item, taxTruthy, htx]
    · simp [create_item, taxTruthy, htx]
  · intro n d p t
    simp [create_item, taxTruthy]

/-- Every Python slice of a list is a contiguous fragment of that list:
the slice drops a prefix of a prefix, so it is an infix. -/
theorem pySlice_infix {α : Type} (l : List α) (i j : Int) :
    pySlice l i j <:+: l :=
  ((List.drop_suffix _ _).isInfix).trans ((List.take_prefix _ _).isInfix)

/-- C10: `GET /items/` accepts a negative skip and applies Python
negative-index slice semantics — skip = -1 with limit = 10 on the
3-entry mock list yields exactly the last entry — and for every integer
skip and limit the handler returns a contiguous fragment of the mock
list (it is total: no combination of integers makes it fail). -/
theorem read_dic_item_negative_skip :
    read_dic_item (-1) 10 = [{ item_name := "Thirt" }] ∧
    ∀ (skip limit : Int), read_dic_item skip limit <:+: fake_items_db := by
  refine ⟨by decide, ?_⟩
  intro skip limit
  exact pySlice_infix fake_items_db skip (skip + limit)

/-- C6: for a string query parameter declared with min_length = m and
max_length = M (as q is with m = 3, M = 50 on the
max-min-length-validation route), every supplied value shorter than m is
rejected with a too_short error, every value longer than M is rejected
with a too_long error, and a value of length exactly m or exactly M
binds successfully. -/
theorem query_min_max_length_validation (m M : Nat) (s : String) (h : m ≤ M) :
    (s.length < m →
      ErrorKind.too_short ∈
        strConstraintErrors { min_length := some m, max_length := some M } s ∧
      ∀ v, bindStrParam { min_length := some m, max_length := some M } s ≠
        Except.ok v) ∧
    (M < s.length →
      ErrorKind.too_long ∈
        strConstraintErrors { min_length := some m, max_length := some M } s ∧
      ∀ v, bindStrParam { min_length := some m, max_length := some M } s ≠
        Except.ok v) ∧
    ((s.length = m ∨ s.length = M) →
      bindStrParam { min_length := some m, max_length := some M } s =
        Except.ok s) := by
  refine ⟨?_, ?_, ?_⟩
  · intro hshort
    have hmem : ErrorKind.too_short ∈
        strConstraintErrors { min_length := some m, max_length := some M } s := by
      simp [strConstraintErrors, hshort]
    refine ⟨hmem, ?_⟩
    intro v hv
    rw [bindStrParam_ok_iff] at hv
    rw [hv.1] at hmem
    exact absurd hmem (List.not_mem_nil _)
  · intro hlong
    have hmem : ErrorKind.too_long ∈
        strConstraintErrors { min_length := some m, max_length := some M } s := by
      simp [strConstraintErrors, hlong]
    refine ⟨hmem, ?_⟩
    intro v hv
    rw [bindStrParam_ok_iff] at hv
    rw [hv.1] at hmem
    exact absurd hmem (List.not_mem_nil _)
  · intro hlen
    have hA : ¬ (s.length < m) := by omega
    have hB : ¬ (M < s.length) := by omega
    simp [bindStrParam, strConstraintErrors, hA, hB]

/-- C6 witness: the theorem at m = 3, M = 50 — the constraints the q
parameter of the max-min-length-validation route declares — rejecting
the two-character value "ab" as too short and accepting the
three-character value "abc". -/
theorem query_min_max_length_validation_witness :
    (3 : Nat) ≤ 50 ∧ "ab".length < 3 ∧
    (ErrorKind.too_short ∈ strConstraintErrors qMinMaxConstraints "ab" ∧
      ∀ v, bindStrParam qMinMaxConstraints "ab" ≠ Except.ok v) ∧
    ("abc".length = 3 ∨ "abc".length = 50) ∧
    bindStrParam qMinMaxConstraints "abc" = Except.ok "abc" :=
  ⟨by decide, by decide,
    (query_min_max_length_validation 3 50 "ab" (by decide)).1 (by decide),
    Or.inl (by decide),
    (query_min_max_length_validation 3 50 "abc" (by decide)).2.2 (Or.inl (by decide))⟩

/-- C7: under the constraints of the regex-validation route
(min_length 3, max_length 50, full-string regex `^fixedquery$`), a
supplied q value binds successfully exactly when it is the literal
"fixedquery"; every other non-empty value is rejected with an error list
containing pattern_mismatch. -/
theorem query_regex_validation (s : String) :
    ((∃ v, bindStrParam qRegexConstraints s = Except.ok v) ↔ s = "fixedquery") ∧
    (s ≠ "" → s ≠ "fixedquery" →
      ErrorKind.pattern_mismatch ∈ strConstraintErrors qRegexConstraints s ∧
      ∀ v, bindStrParam qRegexConstraints s ≠ Except.ok v) := by
  constructor
  · constructor
    · rintro ⟨v, hv⟩
      rw [bindStrParam_ok_iff] at hv
      by_contra hne
      have hmem : ErrorKind.pattern_mismatch ∈
          strConstraintErrors qRegexConstraints s := by
        simp [strConstraintErrors, qRegexConstraints, hne]
      rw [hv.1] at hmem
      exact absurd hmem (List.not_mem_nil _)
    · intro hs
      subst hs
      exact ⟨"fixedquery", rfl⟩
  · intro _ hne
    have hmem : ErrorKind.pattern_mismatch ∈
        strConstraintErrors qRegexConstraints s := by
      simp [strConstraintErrors, qRegexConstraints, hne]
    refine ⟨hmem, ?_⟩
    intro v hv
    rw [bindStrParam_ok_iff] at hv
    rw [hv.1] at hmem
    exact absurd hmem (List.not_mem_nil _)

/-- C7 witness: the theorem applied at the accepted literal "fixedquery"
and at the rejected non-empty value "somequery". -/
theorem query_regex_validation_witness :
    (∃ v, bindStrParam qRegexConstraints "fixedquery" = Except.ok v) ∧
    "somequery" ≠ "" ∧ "somequery" ≠ "fixedquery" ∧
    ErrorKind.pattern_mismatch ∈ strConstraintErrors qRegexConstraints "somequery" :=
  ⟨(query_regex_validation "fixedquery").1.mpr rfl, by decide, by decide,
    ((query_regex_validation "somequery").2 (by decide) (by decide)).1⟩

/-- C8: the aliased query parameter of the alias route (declared name q,
alias item-query) binds from the wire name item-query — supplying
`?item-query=foo` yields a response carrying q = "foo", while supplying
only `?q=foo` (or any query string without the alias name) leaves the
parameter at its default None, and the response omits q. -/
theorem alias_query_binding :
    aliasRouteResponse [("item-query", "foo")] =
      { items := [{ item_id := "Foo" }, { item_id := "Bar" }], q := some "foo" } ∧
    aliasRouteResponse [("q", "foo")] =
      { items := [{ item_id := "Foo" }, { item_id := "Bar" }], q := none } ∧
    ∀ qs : QueryString, (∀ p ∈ qs, p.1 ≠ "item-query") →
      aliasRouteResponse qs =
        { items := [{ item_id := "Foo" }, { item_id := "Bar" }], q := none } := by
  refine ⟨by decide, by decide, ?_⟩
  intro qs h
  have hf : List.find? (fun p => p.1 == "item-query") qs = none := by
    rw [List.find?_eq_none]
    intro x hx
    simpa using h x hx
  simp [aliasRouteResponse, getFirstQueryValue, hf,
    read_items_with_alias_query_params, strOptTruthy]

/-- C8 witness: the no-alias-occurrence clause applied to the query
string that supplies only the unaliased name q. -/
theorem alias_query_binding_witness :
    (∀ p ∈ ([("q", "foo")] : QueryString), p.1 ≠ "item-query") ∧
    aliasRouteResponse [("q", "foo")] =
      { items := [{ item_id := "Foo" }, { item_id := "Bar" }], q := none } :=
  ⟨by decide, alias_query_binding.2.2 [("q", "foo")] (by decide)⟩

/-- C9: a list-of-string query parameter collects all occurrences of q
in order — `?q=foo&q=bar` binds to ["foo", "bar"], also when other keys
are interleaved — and when no occurrence of q is present the parameter
falls back to its declared default, such as ["foo", "bar"] on the
multiple-default-values route (respectively None on the
multiple-values route). -/
theorem list_query_param_binding :
    multiValuesResponse [("q", "foo"), ("q", "bar")] = { q := some ["foo", "bar"] } ∧
    multiValuesResponse [("a", "x"), ("q", "foo"), ("b", "y"), ("q", "bar")] =
      { q := some ["foo", "bar"] } ∧
    multiDefaultResponse [] = { q := ["foo", "bar"] } ∧
    ∀ qs : QueryString, (∀ p ∈ qs, p.1 ≠ "q") →
      multiDefaultResponse qs = { q := ["foo", "bar"] } ∧
      multiValuesResponse qs = { q := none } := by
  refine ⟨by decide, by decide, by decide, ?_⟩
  intro qs h
  have hf : List.filter (fun p => p.1 == "q") qs = [] := by
    rw [List.filter_eq_nil_iff]
    intro x hx
    simpa using h x hx
  constructor
  · simp [multiDefaultResponse, collectQueryValues, hf,
      read_items_query_value_with_multiple_default_values]
  · simp [multiValuesResponse, collectQueryValues, hf,
      read_items_query_value_with_multiple_values]

/-- C9 witness: the no-occurrence clause applied to a query string that
carries only an unrelated key. -/
theorem list_query_param_binding_witness :
    (∀ p ∈ ([("x", "1")] : QueryString), p.1 ≠ "q") ∧
    (multiDefaultResponse [("x", "1")] = { q := ["foo", "bar"] } ∧
      multiValuesResponse [("x", "1")] = { q := none }) :=
  ⟨by decide, list_query_param_binding.2.2.2 [("x", "1")] (by decide)⟩
